import Mathlib

/-!
Formal model of the ed-thirdeye application shell: a shallow embedding of
the persistence adapter (src/app/persistence.rs), the settings schema
(src/app/settings.rs), the tile tree operations used by the app
(egui_tiles as exercised from src/app/mod.rs), and the per-frame
message-handling loop (App::update / App::handle_messages in
src/app/mod.rs). Definitions are translated from the Rust sources;
theorems settle the specified properties against them.
-/

set_option autoImplicit false

namespace ThirdEye

/-! Persistence adapter (src/app/persistence.rs) -/

/-- Kinds of I/O errors the program distinguishes (std::io::ErrorKind as
used in load_data: only NotFound is treated specially). -/
inductive IoErrorKind
  | notFound
  | permissionDenied
  | other
deriving DecidableEq

/-- PersistenceError (src/app/persistence.rs lines 11-19): an I/O error,
a ron deserialization error (SpannedError), or a ron serialization error. -/
inductive PersistenceError
  | ioError (kind : IoErrorKind)
  | ronSpannedError (msg : String)
  | ronError (msg : String)
deriving DecidableEq

/-- Outcome of File::open on a path: the file's full content on success,
or an I/O error kind. Opening a nonexistent file yields err notFound. -/
inductive OpenResult
  | ok (content : String)
  | err (kind : IoErrorKind)
deriving DecidableEq

/-- load_data (src/app/persistence.rs lines 24-30): open the file and
deserialize its content on success; map a NotFound open error to Ok(None)
and propagate any other open error or decode error as an error value.
The decode argument stands for the generic ron deserializer for T. -/
def load_data {T : Type} (decode : String → Except String T) (openRes : OpenResult) :
    Except PersistenceError (Option T) :=
  match openRes with
  | .ok content =>
    match decode content with
    | .ok v => .ok (some v)
    | .error e => .error (.ronSpannedError e)
  | .err kind => if kind = .notFound then .ok none else .error (.ioError kind)

/-! Settings schema (src/app/settings.rs) -/

/-- egui's ThemePreference, the type of Settings.theme. -/
inductive ThemePreference
  | dark
  | light
  | system
deriving DecidableEq

/-- JournalPath (src/app/settings.rs lines 8-13): a raw string, a file
system path (modelled as its components), or unset. -/
inductive JournalPath
  | str (s : String)
  | path (components : List String)
  | unset
deriving DecidableEq

/-- Operating systems distinguished by the cfg!(target_os) checks. -/
inductive Os
  | windows
  | linux
  | otherOs
deriving DecidableEq

/-- Platform facts consulted by JournalPath::default: the operating system
and the dirs crate's home and data directories. -/
structure Platform where
  os : Os
  home_dir : Option (List String)
  data_dir : Option (List String)

/-- Path suffix shared by all platforms (src/app/settings.rs lines 17-20). -/
def journalPathSuffix : List String :=
  ["Saved Games", "Frontier Developments", "Elite Dangerous"]

/-- JournalPath::default (src/app/settings.rs lines 15-47). -/
def JournalPath.default (pf : Platform) : JournalPath :=
  match pf.os with
  | .windows =>
      (pf.home_dir.map (fun p => JournalPath.path (p ++ journalPathSuffix))).getD .unset
  | .linux =>
      (pf.data_dir.map (fun p => JournalPath.path
        (p ++ ["Steam", "steamapps", "compatdata", "359320", "pfx", "drive_c",
               "users", "steamuser"] ++ journalPathSuffix))).getD .unset
  | .otherOs => .unset

/-- Settings (src/app/settings.rs lines 97-104). -/
structure Settings where
  theme : ThemePreference
  journal_path : JournalPath
deriving DecidableEq

/-- Settings::default (src/app/settings.rs lines 106-113). -/
def Settings.default (pf : Platform) : Settings :=
  { theme := .system, journal_path := JournalPath.default pf }

/-- Which fields a persisted settings document provides (a field is none
when the document does not contain it). -/
structure SettingsDoc where
  theme : Option ThemePreference
  journal_path : Option JournalPath
deriving DecidableEq

/-- serde's missing-field deserialization error. -/
inductive SerdeError
  | missingField (field : String)
deriving DecidableEq

/-- Derived serde Deserialize for Settings (src/app/settings.rs line 97):
no field of the struct carries a serde default attribute, so a document
missing a field is rejected with a missing-field error; fields are
resolved in declaration order (theme, then journal_path). -/
def Settings.deserialize (doc : SettingsDoc) : Except SerdeError Settings :=
  match doc.theme with
  | none => .error (.missingField "theme")
  | some t =>
    match doc.journal_path with
    | none => .error (.missingField "journal_path")
    | some j => .ok { theme := t, journal_path := j }

/-- App::init, settings branch (src/app/mod.rs lines 54-60): a loaded
value is used as-is, a missing file or any load error falls back to
Settings::default, resetting every field. -/
def initSettings (pf : Platform) (r : Except PersistenceError (Option Settings)) : Settings :=
  match r with
  | .ok (some s) => s
  | .ok none => Settings.default pf
  | .error _ => Settings.default pf

/-! Tile tree (egui_tiles, as exercised from src/app/mod.rs): an arena of
tiles addressed by identifiers, plus an optional root. -/

/-- Tile identifiers: arena indices allocated from a counter. -/
abbrev TileId := Nat

/-- Registered pane variants (src/panes: welcome.rs, about.rs,
nostorage.rs); each is a unit struct, so the variant tag is the state. -/
inductive TEPane
  | Welcome
  | About
  | NoStorage
deriving DecidableEq

/-- egui_tiles containers: tab groups (with an optionally active child),
linear splits, and grids, each holding child tile identifiers. -/
inductive Container
  | Tabs (children : List TileId) (active : Option TileId)
  | Linear (children : List TileId)
  | Grid (children : List TileId)
deriving DecidableEq

/-- egui_tiles Tile: a pane leaf or a container. -/
inductive Tile
  | Pane (pane : TEPane)
  | Container (container : Container)
deriving DecidableEq

/-- Children of a container. -/
def Container.children : Container → List TileId
  | .Tabs ch _ => ch
  | .Linear ch => ch
  | .Grid ch => ch

/-- Container::add_child: append the child to the container's children. -/
def Container.add_child : Container → TileId → Container
  | .Tabs ch a, c => .Tabs (ch ++ [c]) a
  | .Linear ch, c => .Linear (ch ++ [c])
  | .Grid ch, c => .Grid (ch ++ [c])

/-- Tabs::set_active, applied only when the container is a tab group
(the `if let Container::Tabs(tabs) = parent` in App::handle_messages). -/
def Container.set_active_if_tabs : Container → TileId → Container
  | .Tabs ch _, c => .Tabs ch (some c)
  | other, _ => other

/-- Lookup in an association list of tiles (first match). -/
def assocGet (k : TileId) : List (TileId × Tile) → Option Tile
  | [] => none
  | e :: es => if e.1 = k then some e.2 else assocGet k es

/-- Replace the value stored under a key, leaving other entries alone. -/
def assocSet (k : TileId) (v : Tile) : List (TileId × Tile) → List (TileId × Tile)
  | [] => []
  | e :: es => (if e.1 = k then (e.1, v) else e) :: assocSet k v es

/-- egui_tiles Tiles: the tile arena (a map from identifier to tile plus
the next free identifier). -/
structure Tiles where
  entries : List (TileId × Tile)
  next : TileId
deriving DecidableEq

/-- Tiles::get / get_mut target. -/
def Tiles.get (ts : Tiles) (id : TileId) : Option Tile :=
  assocGet id ts.entries

/-- Store a tile under an existing identifier (the effect of mutating
through Tiles::get_mut). -/
def Tiles.set (ts : Tiles) (id : TileId) (t : Tile) : Tiles :=
  { ts with entries := assocSet id t ts.entries }

/-- Tiles::insert_pane: allocate a fresh identifier, add a pane tile under
it, and return the identifier. -/
def Tiles.insert_pane (ts : Tiles) (p : TEPane) : TileId × Tiles :=
  (ts.next, { entries := ts.entries ++ [(ts.next, .Pane p)], next := ts.next + 1 })

/-- Insert a container tile under a fresh identifier. -/
def Tiles.insert_container (ts : Tiles) (c : Container) : TileId × Tiles :=
  (ts.next, { entries := ts.entries ++ [(ts.next, .Container c)], next := ts.next + 1 })

/-- Arena well-formedness: every allocated identifier is below the
counter, so freshly allocated identifiers are unused. Maintained by
construction in egui_tiles. -/
def Tiles.fresh (ts : Tiles) : Bool :=
  ts.entries.all (fun e => e.1 < ts.next)

/-- egui_tiles Tree: an optional root plus the tile arena. -/
structure Tree where
  root : Option TileId
  tiles : Tiles
deriving DecidableEq

/-- Tree::is_empty: whether the arena holds no tiles. -/
def Tree.is_empty (t : Tree) : Bool :=
  t.tiles.entries.isEmpty

/-- Tree::new_tabs (used in App::init): insert one pane tile per pane,
wrap them in a tab container whose first child is active, and make the
container the root. The string argument mirrors the tree id ("root_tabs")
and does not influence the structure. -/
def Tree.new_tabs (_id : String) (panes : List TEPane) : Tree :=
  let seeded := panes.foldl
    (fun (acc : List TileId × Tiles) p =>
      let r := acc.2.insert_pane p
      (acc.1 ++ [r.1], r.2))
    ([], ⟨[], 0⟩)
  let r := seeded.2.insert_container (.Tabs seeded.1 seeded.1.head?)
  { root := some r.1, tiles := r.2 }

/-- Panes stored in the tree's arena, in arena order. -/
def Tree.panes (t : Tree) : List TEPane :=
  t.tiles.entries.filterMap (fun e =>
    match e.2 with
    | .Pane p => some p
    | .Container _ => none)

/-- App::init, layout branch (src/app/mod.rs lines 62-75): a loaded tree
is used as-is; a missing file or any load error falls back to a fresh
single-Welcome-tab tree (the error case also logs a warning). -/
def initLayout (r : Except PersistenceError (Option Tree)) : Tree :=
  match r with
  | .ok (some layout) => layout
  | .ok none => Tree.new_tabs "root_tabs" [.Welcome]
  | .error _ => Tree.new_tabs "root_tabs" [.Welcome]

/-! Message loop (src/app/mod.rs) -/

/-- Message (src/app/mod.rs lines 20-30). -/
inductive Message
  | AutoSave
  | AddPane (parent : TileId) (pane : TEPane)
  | CloseSettingsModal (new_settings : Option Settings)
deriving DecidableEq

/-- Log levels used by the app. -/
inductive LogLevel
  | debugLevel
  | infoLevel
  | warnLevel
deriving DecidableEq

/-- App (src/app/mod.rs lines 33-40) together with the observable effects
of the egui context: the theme applied via ctx.set_theme, the snapshots
persisted by App::save_data, and the log. The message channel is modelled
by passing the drained message list to the frame explicitly. -/
structure AppState where
  settings : Settings
  layout : Tree
  settings_editor : Option Settings
  applied_theme : ThemePreference
  saves : List (Settings × Tree)
  log : List (LogLevel × String)
deriving DecidableEq

/-- Warning text of the stale-parent branch of App::handle_messages. -/
def warnNonContainer : String :=
  "cannot open a new pane in non-container parent"

/-- App::apply_settings (src/app/mod.rs lines 120-123): request a repaint
and apply the configured theme to the egui context. -/
def apply_settings (s : AppState) : AppState :=
  { s with applied_theme := s.settings.theme }

/-- The body of the match in App::handle_messages (src/app/mod.rs lines
164-187), applied to one message. -/
def applyMessage (s : AppState) : Message → AppState
  | .AutoSave =>
      { s with
        saves := s.saves ++ [(s.settings, s.layout)],
        log := s.log ++ [(.infoLevel, "saving persistent data...")] }
  | .AddPane parent pane =>
      let inserted := s.layout.tiles.insert_pane pane
      let child := inserted.1
      let tiles := inserted.2
      match tiles.get parent with
      | some (.Container c) =>
          let c := (c.add_child child).set_active_if_tabs child
          { s with layout := { s.layout with tiles := tiles.set parent (.Container c) } }
      | _ =>
          { s with
            layout := { s.layout with tiles := tiles },
            log := s.log ++ [(.warnLevel, warnNonContainer)] }
  | .CloseSettingsModal new_settings =>
      let s := { s with settings_editor := none }
      match new_settings with
      | some ns => apply_settings { s with settings := ns }
      | none => s

/-- App::handle_messages (src/app/mod.rs lines 161-189): drain the channel
with try_iter, applying each message as it is received. -/
def handle_messages (s : AppState) : List Message → AppState
  | [] => s
  | m :: rest => handle_messages (applyMessage s m) rest

/-- App::avoid_empty_layout (src/app/mod.rs lines 149-158): when the tree
holds no tiles, insert a Welcome pane and make it the root. -/
def avoid_empty_layout (s : AppState) : AppState :=
  if s.layout.is_empty then
    let r := s.layout.tiles.insert_pane .Welcome
    { s with
      layout := { root := some r.1, tiles := r.2 },
      log := s.log ++ [(.infoLevel, "layout contains no tiles - adding one...")] }
  else s

/-- State in effect while this frame renders its toolbar, tiles, and
modal: App::update first handles global hotkeys (no modelled state),
then avoid_empty_layout, then the toolbar, whose Settings button opens
the editor on a cloned Settings value. -/
def renderState (s : AppState) (settingsClicked : Bool) : AppState :=
  let s1 := avoid_empty_layout s
  if settingsClicked then { s1 with settings_editor := some s1.settings } else s1

/-- Result of one frame: the layout as rendered, and the state handed to
the next frame. -/
structure FrameResult where
  rendered : Tree
  next : AppState
deriving DecidableEq

/-- App::update (src/app/mod.rs lines 198-226): hotkeys, avoid_empty_layout,
toolbar, render of the tile tree and modal (which enqueue messages), then
handle_messages draining every message that arrived during the frame. -/
def update (s : AppState) (settingsClicked : Bool) (msgs : List Message) : FrameResult :=
  let s2 := renderState s settingsClicked
  { rendered := s2.layout, next := handle_messages s2 msgs }

/-! save_data (src/app/persistence.rs lines 34-42), modelled at the level
of the file-system operations it performs, so that crash behaviour can be
examined. -/

/-- A flat file system: file path to content. -/
abbrev FS := List (String × String)

/-- Content of a file, first match. -/
def fsGet (p : String) : FS → Option String
  | [] => none
  | e :: es => if e.1 = p then some e.2 else fsGet p es

/-- Create or replace a file's content. -/
def fsSet (fs : FS) (p : String) (c : String) : FS :=
  fs.filter (fun e => e.1 ≠ p) ++ [(p, c)]

/-- Primitive file-system operations available to the persistence layer. -/
inductive FsOp
  | createDirAll (dir : String)
  | createFile (p : String)
  | writeAll (p : String) (content : String)
  | rename (src : String) (dst : String)
deriving DecidableEq

/-- Effect of one completed operation: create truncates to empty, writeAll
stores the content, rename moves a file. -/
def applyFsOp (fs : FS) : FsOp → FS
  | .createDirAll _ => fs
  | .createFile p => fsSet fs p ""
  | .writeAll p c => fsSet fs p c
  | .rename src dst =>
      match fsGet src fs with
      | some c => fsSet (fs.filter (fun e => e.1 ≠ src)) dst c
      | none => fs

/-- Strict prefixes of a string, by character count. -/
def strictPrefixes (s : String) : List String :=
  (List.range s.length).map (fun i => String.mk (s.toList.take i))

/-- File-system states observable when a crash interrupts the given
operation: a write may have flushed any strict prefix of its content;
the other operations are treated as atomic. -/
def crashMidStates (fs : FS) : FsOp → List FS
  | .writeAll p c => (strictPrefixes c).map (fun pre => fsSet fs p pre)
  | _ => []

/-- All file-system states observable if a crash happens at any point
while the operation list runs. -/
def crashStates (fs : FS) : List FsOp → List FS
  | [] => [fs]
  | op :: rest => fs :: (crashMidStates fs op ++ crashStates (applyFsOp fs op) rest)

/-- Operation trace of save_data (src/app/persistence.rs lines 34-42):
create the parent directories when the path has a parent, then
File::create the destination itself, then stream the serialized document
into it. No temporary file and no rename is involved. -/
def save_data_ops (parent : Option String) (p : String) (encoded : String) : List FsOp :=
  (match parent with
   | some dir => [FsOp.createDirAll dir]
   | none => []) ++ [FsOp.createFile p, FsOp.writeAll p encoded]

/-- Outcome of one fallible file-system step. -/
inductive StepOutcome
  | ok
  | ioFail (kind : IoErrorKind)
deriving DecidableEq

/-- Environment describing which steps of a save attempt fail. -/
structure SaveEnv where
  create_dir_all : StepOutcome
  create : StepOutcome
  serialize : Except String Unit

/-- Result-level embedding of save_data: each fallible step propagates
its failure with the question-mark operator, converted into
PersistenceError; no step panics. -/
def save_data (parent : Option String) (env : SaveEnv) : Except PersistenceError Unit :=
  let dirStep : Except PersistenceError Unit :=
    match parent with
    | none => .ok ()
    | some _ =>
      match env.create_dir_all with
      | .ok => .ok ()
      | .ioFail k => .error (.ioError k)
  match dirStep with
  | .error e => .error e
  | .ok _ =>
    match env.create with
    | .ioFail k => .error (.ioError k)
    | .ok =>
      match env.serialize with
      | .error e => .error (.ronError e)
      | .ok _ => .ok ()

/-- ron serialization of an unsigned integer, as written by
ron::ser::to_writer_pretty for a bare integer value. -/
def ronEncodeNat (n : Nat) : String := toString n

/-- Accumulating decimal parser over the document's characters. -/
def parseNatAux : List Char → Nat → Option Nat
  | [], acc => some acc
  | c :: cs, acc =>
      if '0' ≤ c ∧ c ≤ '9' then parseNatAux cs (acc * 10 + (c.toNat - 48))
      else none

/-- ron deserialization of an unsigned integer document. -/
def ronDecodeNat (s : String) : Except String Nat :=
  match s.data with
  | [] => .error "expected integer"
  | cs =>
    match parseNatAux cs 0 with
    | some n => .ok n
    | none => .error "expected integer"

/-! Helper lemmas about the association-list operations -/
theorem assocGet_append_of_none (k : TileId) (l₁ l₂ : List (TileId × Tile))
    (h : assocGet k l₁ = none) : assocGet k (l₁ ++ l₂) = assocGet k l₂ := by
  induction l₁ with
  | nil => rfl
  | cons e es ih =>
    by_cases he : e.1 = k
    · simp [assocGet, he] at h
    · simp only [List.cons_append, assocGet, if_neg he] at h ⊢
      exact ih h

theorem assocGet_append_of_some (k : TileId) (v : Tile) (l₁ l₂ : List (TileId × Tile))
    (h : assocGet k l₁ = some v) : assocGet k (l₁ ++ l₂) = some v := by
  induction l₁ with
  | nil => exact Option.noConfusion h
  | cons e es ih =>
    by_cases he : e.1 = k
    · simp only [List.cons_append, assocGet, if_pos he] at h ⊢
      exact h
    · simp only [List.cons_append, assocGet, if_neg he] at h ⊢
      exact ih h

theorem assocGet_assocSet_self (k : TileId) (v : Tile) (l : List (TileId × Tile)) :
    assocGet k (assocSet k v l) = (assocGet k l).map (fun _ => v) := by
  induction l with
  | nil => rfl
  | cons e es ih =>
    by_cases he : e.1 = k
    · simp [assocGet, assocSet, he]
    · simp [assocGet, assocSet, he, ih]

theorem assocGet_assocSet_ne (k k' : TileId) (v : Tile) (l : List (TileId × Tile))
    (h : k ≠ k') : assocGet k (assocSet k' v l) = assocGet k l := by
  induction l with
  | nil => rfl
  | cons e es ih =>
    by_cases he : e.1 = k'
    · have hk : ¬ k' = k := fun hh => h hh.symm
      simp [assocGet, assocSet, he, hk, ih]
    · simp [assocGet, assocSet, he, ih]

theorem assocGet_none_of_bound (n : TileId) (l : List (TileId × Tile))
    (h : ∀ e ∈ l, e.1 < n) : assocGet n l = none := by
  induction l with
  | nil => rfl
  | cons e es ih =>
    have h1 : e.1 < n := h e (by simp)
    have hne : ¬ e.1 = n := Nat.ne_of_lt h1
    simp only [assocGet, if_neg hne]
    exact ih (fun x hx => h x (by simp [hx]))

theorem Tiles.get_next_of_fresh (ts : Tiles) (h : ts.fresh = true) :
    ts.get ts.next = none := by
  refine assocGet_none_of_bound ts.next ts.entries (fun e he => ?_)
  have h2 := List.all_eq_true.mp h e he
  exact of_decide_eq_true h2

theorem handle_messages_eq_foldl (msgs : List Message) (s : AppState) :
    handle_messages s msgs = List.foldl applyMessage s msgs := by
  induction msgs generalizing s with
  | nil => rfl
  | cons m rest ih => simp only [handle_messages, List.foldl]; exact ih (applyMessage s m)

/-! Claim theorems -/

/-- C5: load_data returns Ok(None) exactly when the target file does not
exist (File::open reports NotFound), returns Ok(Some(decoded value)) on a
successful read and decode, and returns a structured error value,
distinguishable from the not-found case, for a decode failure or any
other I/O failure. -/
theorem load_data_contract {T : Type} (decode : String → Except String T) (r : OpenResult) :
    (load_data decode r = .ok none ↔ r = .err .notFound)
  ∧ (∀ c v, r = .ok c → decode c = .ok v → load_data decode r = .ok (some v))
  ∧ (∀ c e, r = .ok c → decode c = .error e →
      load_data decode r = .error (.ronSpannedError e))
  ∧ (∀ k, r = .err k → k ≠ .notFound → load_data decode r = .error (.ioError k)) := by
  refine ⟨?_, ?_, ?_, ?_⟩
  · cases r with
    | ok c =>
      simp only [load_data]
      cases hd : decode c <;> simp
    | err k =>
      simp only [load_data]
      by_cases hk : k = .notFound <;> simp [hk]
  · intro c v hc hv
    subst hc
    simp [load_data, hv]
  · intro c e hc he
    subst hc
    simp [load_data, he]
  · intro k hk hnk
    subst hk
    simp [load_data, hnk]

/-- Witness for load_data_contract at a concrete decoder and file. -/
theorem load_data_contract_witness :
    load_data ronDecodeNat (.ok "7") = .ok (some 7) :=
  (load_data_contract ronDecodeNat (.ok "7")).2.1 "7" 7 rfl rfl

/-- C2 (code bug): the Settings struct derives Deserialize without any
serde default attribute, so a settings document that lacks a
newly-introduced field (here: theme, absent from the prior schema that
only stored journal_path) is rejected with a missing-field error instead
of loading with the documented default; App::init then discards the
whole document and resets every field to its default, contradicting the
struct's own backward-compatibility doc comment. -/
theorem settings_missing_field_rejected (pf : Platform) :
    Settings.deserialize { theme := none, journal_path := some .unset }
      = .error (.missingField "theme")
  ∧ initSettings pf (.error (.ronSpannedError "missing field theme"))
      = Settings.default pf :=
  ⟨rfl, rfl⟩

/-- Stand-in for the ron+typetag deserializer of the persisted layout
tree, failing as it does on corrupt data or an unrecognized pane variant
tag. -/
def failingLayoutDecode : String → Except String Tree :=
  fun _ => .error "unknown pane variant tag"

/-- C1 counterexample: when the persisted layout file exists but fails to
deserialize, App::init does not substitute the diagnostic NoStorage
("load error") pane; it builds the ordinary first-run layout whose only
pane is Welcome, so the claimed NoStorage fallback never appears. -/
theorem layout_error_yields_welcome_not_nostorage :
    (initLayout (load_data failingLayoutDecode (.ok "(root: bad)"))).panes
      = [TEPane.Welcome]
  ∧ TEPane.NoStorage ∉
      (initLayout (load_data failingLayoutDecode (.ok "(root: bad)"))).panes :=
  ⟨rfl, by decide⟩

/-- C1 (amended): when the persisted layout file exists but fails to
load, startup logs a warning and replaces the layout with the same fresh
single-Welcome-tab tree used on first run, rather than aborting; the
NoStorage pane is not used on this path. -/
theorem layout_load_error_falls_back_to_welcome
    (decode : String → Except String Tree) (content msg : String)
    (h : decode content = .error msg) :
    initLayout (load_data decode (.ok content)) = Tree.new_tabs "root_tabs" [.Welcome]
  ∧ (∀ e, initLayout (.error e) = Tree.new_tabs "root_tabs" [.Welcome])
  ∧ (Tree.new_tabs "root_tabs" [TEPane.Welcome]).panes = [TEPane.Welcome] := by
  refine ⟨?_, fun e => rfl, rfl⟩
  simp [load_data, h, initLayout]

/-- Witness for layout_load_error_falls_back_to_welcome on a concrete
corrupt document. -/
theorem layout_load_error_falls_back_to_welcome_witness :
    initLayout (load_data failingLayoutDecode (.ok "(root: bad)"))
      = Tree.new_tabs "root_tabs" [TEPane.Welcome] :=
  (layout_load_error_falls_back_to_welcome failingLayoutDecode "(root: bad)"
    "unknown pane variant tag" rfl).1

/-- Whether an arena lookup produced a container tile. -/
def isContainerTile : Option Tile → Bool
  | some (.Container _) => true
  | _ => false

/-- Demonstration settings value. -/
def demoSettings : Settings :=
  { theme := .system, journal_path := .unset }

/-- Demonstration app state holding the first-run layout: a Welcome pane
tile (id 0) inside a root tab group (id 1); the next free id is 2. -/
def demoState : AppState :=
  { settings := demoSettings
    layout := Tree.new_tabs "root_tabs" [.Welcome]
    settings_editor := none
    applied_theme := .system
    saves := []
    log := [] }

/-- C4 counterexample: an AddPane message whose parent identifier (5)
does not resolve in the tree does not leave the tree unchanged: the tile
arena still gains the inserted pane, so the layout after handling the
message differs from the layout before. -/
theorem stale_addpane_changes_layout :
    ((demoState.layout.tiles.insert_pane .About).2.get 5 = none)
  ∧ (applyMessage demoState (.AddPane 5 .About)).layout ≠ demoState.layout :=
  ⟨rfl, by decide⟩

/-- C4 (amended): an AddPane message whose parent identifier does not
resolve to a container leaves the reachable tree structure unchanged -
the root and every previously existing tile are untouched - logs a
warning, and changes nothing else; it neither errors nor crashes, though
the tile arena does gain one unreferenced orphan pane tile. -/
theorem stale_addpane_warns_and_preserves_structure
    (s : AppState) (parent : TileId) (pane : TEPane)
    (h : isContainerTile ((s.layout.tiles.insert_pane pane).2.get parent) = false) :
    let s2 := applyMessage s (.AddPane parent pane)
    s2.layout.root = s.layout.root
  ∧ (∀ id, id ≠ s.layout.tiles.next → s2.layout.tiles.get id = s.layout.tiles.get id)
  ∧ s2.layout.tiles.next = s.layout.tiles.next + 1
  ∧ s2.log = s.log ++ [(.warnLevel, warnNonContainer)]
  ∧ s2.settings = s.settings
  ∧ s2.settings_editor = s.settings_editor := by
  intro s2
  have harm : s2 =
      { s with
        layout := { s.layout with tiles := (s.layout.tiles.insert_pane pane).2 },
        log := s.log ++ [(.warnLevel, warnNonContainer)] } := by
    show applyMessage s (.AddPane parent pane) = _
    simp only [applyMessage]
    cases hg : (s.layout.tiles.insert_pane pane).2.get parent with
    | none => rfl
    | some t =>
      cases t with
      | Pane p => rfl
      | Container c =>
        rw [hg] at h
        simp [isContainerTile] at h
  refine ⟨by rw [harm], ?_, by rw [harm]; rfl, by rw [harm], by rw [harm], by rw [harm]⟩
  intro id hid
  rw [harm]
  show assocGet id (s.layout.tiles.entries ++ [(s.layout.tiles.next, .Pane pane)])
      = assocGet id s.layout.tiles.entries
  cases hx : assocGet id s.layout.tiles.entries with
  | none =>
    rw [assocGet_append_of_none id _ _ hx]
    have hne : ¬ s.layout.tiles.next = id := fun hh => hid hh.symm
    simp [assocGet, hne]
  | some v => exact assocGet_append_of_some id v _ _ hx

/-- Witness for stale_addpane_warns_and_preserves_structure at the
demonstration state and the dangling parent identifier 5. -/
theorem stale_addpane_warns_witness :
    (applyMessage demoState (.AddPane 5 .About)).layout.root = demoState.layout.root
  ∧ (∀ id, id ≠ demoState.layout.tiles.next →
      (applyMessage demoState (.AddPane 5 .About)).layout.tiles.get id
        = demoState.layout.tiles.get id)
  ∧ (applyMessage demoState (.AddPane 5 .About)).layout.tiles.next
      = demoState.layout.tiles.next + 1
  ∧ (applyMessage demoState (.AddPane 5 .About)).log
      = demoState.log ++ [(.warnLevel, warnNonContainer)]
  ∧ (applyMessage demoState (.AddPane 5 .About)).settings = demoState.settings
  ∧ (applyMessage demoState (.AddPane 5 .About)).settings_editor
      = demoState.settings_editor :=
  stale_addpane_warns_and_preserves_structure demoState 5 .About (by decide)

/-- C10: handling AddPane inserts the pane into the tile arena before the
parent identifier is looked up, so even when the parent does not resolve
to a container the arena still gains the new pane tile under the fresh
identifier, the allocation counter advances, and no existing container
adopts the new tile (the pane is an orphan). -/
theorem addpane_inserts_orphan_before_parent_lookup
    (s : AppState) (parent : TileId) (pane : TEPane)
    (h : isContainerTile ((s.layout.tiles.insert_pane pane).2.get parent) = false) :
    let s2 := applyMessage s (.AddPane parent pane)
    s2.layout.tiles.entries
      = s.layout.tiles.entries ++ [(s.layout.tiles.next, .Pane pane)]
  ∧ (∀ id c, s.layout.tiles.get id = some (.Container c) →
      s2.layout.tiles.get id = some (.Container c)) := by
  intro s2
  have harm : s2 =
      { s with
        layout := { s.layout with tiles := (s.layout.tiles.insert_pane pane).2 },
        log := s.log ++ [(.warnLevel, warnNonContainer)] } := by
    show applyMessage s (.AddPane parent pane) = _
    simp only [applyMessage]
    cases hg : (s.layout.tiles.insert_pane pane).2.get parent with
    | none => rfl
    | some t =>
      cases t with
      | Pane p => rfl
      | Container c =>
        rw [hg] at h
        simp [isContainerTile] at h
  refine ⟨by rw [harm]; rfl, ?_⟩
  intro id c hc
  rw [harm]
  exact assocGet_append_of_some id (.Container c) _ _ hc

/-- Witness for addpane_inserts_orphan_before_parent_lookup at the
demonstration state and the dangling parent identifier 5. -/
theorem addpane_inserts_orphan_witness :
    (applyMessage demoState (.AddPane 5 .About)).layout.tiles.entries
      = demoState.layout.tiles.entries
          ++ [(demoState.layout.tiles.next, .Pane .About)]
  ∧ (∀ id c, demoState.layout.tiles.get id = some (.Container c) →
      (applyMessage demoState (.AddPane 5 .About)).layout.tiles.get id
        = some (.Container c)) :=
  addpane_inserts_orphan_before_parent_lookup demoState 5 .About (by decide)

/-- C7: an AddPane message whose parent identifier resolves to a container
tile inserts the pane as a new leaf under the fresh identifier, appends
that leaf to the container's children, and, when the container is a tab
group, makes the new leaf the active tab. The freshness hypothesis is the
arena invariant that allocated identifiers stay below the counter. -/
theorem addpane_appends_child_and_activates
    (s : AppState) (parent : TileId) (pane : TEPane) (c : Container)
    (hf : s.layout.tiles.fresh = true)
    (h : (s.layout.tiles.insert_pane pane).2.get parent = some (.Container c)) :
    let child := s.layout.tiles.next
    let s2 := applyMessage s (.AddPane parent pane)
    s2.layout.tiles.get child = some (.Pane pane)
  ∧ s2.layout.tiles.get parent
      = some (.Container ((c.add_child child).set_active_if_tabs child))
  ∧ ((c.add_child child).set_active_if_tabs child).children
      = c.children ++ [child]
  ∧ (∀ ch a, c = .Tabs ch a →
      (c.add_child child).set_active_if_tabs child
        = .Tabs (ch ++ [child]) (some child)) := by
  intro child s2
  have hget2 : (s.layout.tiles.insert_pane pane).2.get child = some (.Pane pane) := by
    show assocGet child (s.layout.tiles.entries ++ [(child, .Pane pane)])
        = some (.Pane pane)
    rw [assocGet_append_of_none child _ _ (Tiles.get_next_of_fresh s.layout.tiles hf)]
    simp [assocGet]
  have hpc : parent ≠ child := by
    intro hpc
    rw [hpc, hget2] at h
    cases h
  have harm : s2 =
      { s with layout := { s.layout with
          tiles := (s.layout.tiles.insert_pane pane).2.set parent
            (.Container ((c.add_child child).set_active_if_tabs child)) } } := by
    show applyMessage s (.AddPane parent pane) = _
    simp only [applyMessage, h]
    rfl
  refine ⟨?_, ?_, ?_, ?_⟩
  · rw [harm]
    show assocGet child (assocSet parent _ (s.layout.tiles.insert_pane pane).2.entries)
        = some (.Pane pane)
    rw [assocGet_assocSet_ne child parent _ _ (fun hh => hpc hh.symm)]
    exact hget2
  · rw [harm]
    show assocGet parent (assocSet parent _ (s.layout.tiles.insert_pane pane).2.entries)
        = some (.Container ((c.add_child child).set_active_if_tabs child))
    rw [assocGet_assocSet_self]
    have hgp : assocGet parent (s.layout.tiles.insert_pane pane).2.entries
        = some (.Container c) := h
    rw [hgp]
    rfl
  · cases c <;> rfl
  · intro ch a hca
    subst hca
    rfl

/-- Witness for addpane_appends_child_and_activates: adding an About pane
to the root tab group (id 1) of the demonstration state. -/
theorem addpane_appends_child_witness :
    (applyMessage demoState (.AddPane 1 .About)).layout.tiles.get
        demoState.layout.tiles.next = some (.Pane .About)
  ∧ (applyMessage demoState (.AddPane 1 .About)).layout.tiles.get 1
      = some (.Container ((Container.add_child (.Tabs [0] (some 0))
          demoState.layout.tiles.next).set_active_if_tabs
            demoState.layout.tiles.next))
  ∧ ((Container.add_child (.Tabs [0] (some 0))
        demoState.layout.tiles.next).set_active_if_tabs
          demoState.layout.tiles.next).children
      = (Container.Tabs [0] (some 0)).children ++ [demoState.layout.tiles.next]
  ∧ (∀ ch a, Container.Tabs [0] (some 0) = .Tabs ch a →
      (Container.add_child (.Tabs [0] (some 0))
          demoState.layout.tiles.next).set_active_if_tabs
            demoState.layout.tiles.next
        = .Tabs (ch ++ [demoState.layout.tiles.next])
            (some demoState.layout.tiles.next)) :=
  addpane_appends_child_and_activates demoState 1 .About (.Tabs [0] (some 0))
    (by decide) (by decide)

/-- C6: whenever the tile tree holds zero tiles at the start of a frame,
App::update restores it, before anything renders, to exactly one tile
containing the default Welcome pane with the root pointing at it; and no
frame ever renders an empty tree. -/
theorem empty_layout_restored_before_render
    (s : AppState) (b : Bool) (msgs : List Message)
    (h : s.layout.is_empty = true) :
    ((update s b msgs).rendered.tiles.entries
        = [(s.layout.tiles.next, .Pane .Welcome)]
     ∧ (update s b msgs).rendered.root = some s.layout.tiles.next)
  ∧ (∀ (s2 : AppState) (b2 : Bool) (msgs2 : List Message),
      (update s2 b2 msgs2).rendered.is_empty = false) := by
  have hrend : ∀ (s2 : AppState) (b2 : Bool) (msgs2 : List Message),
      (update s2 b2 msgs2).rendered = (avoid_empty_layout s2).layout := by
    intro s2 b2 msgs2
    cases b2 <;> rfl
  constructor
  · have hnil : s.layout.tiles.entries = [] := by
      simpa [Tree.is_empty, List.isEmpty_iff] using h
    rw [hrend]
    simp [avoid_empty_layout, h, Tiles.insert_pane, hnil]
  · intro s2 b2 msgs2
    rw [hrend]
    by_cases h2 : s2.layout.is_empty = true
    · have hnil : s2.layout.tiles.entries = [] := by
        simpa [Tree.is_empty, List.isEmpty_iff] using h2
      simp [avoid_empty_layout, h2, Tree.is_empty, Tiles.insert_pane, hnil]
    · have h2f : s2.layout.is_empty = false := by
        cases hv : s2.layout.is_empty
        · rfl
        · exact absurd hv h2
      simp [avoid_empty_layout, h2f]

/-- Demonstration app state whose layout holds zero tiles. -/
def emptyDemoState : AppState :=
  { settings := demoSettings
    layout := { root := none, tiles := { entries := [], next := 0 } }
    settings_editor := none
    applied_theme := .system
    saves := []
    log := [] }

/-- Witness for empty_layout_restored_before_render at a concrete empty
layout. -/
theorem empty_layout_restored_witness :
    (((update emptyDemoState false []).rendered.tiles.entries
        = [(emptyDemoState.layout.tiles.next, .Pane .Welcome)])
     ∧ (update emptyDemoState false []).rendered.root
        = some emptyDemoState.layout.tiles.next)
  ∧ (∀ (s2 : AppState) (b2 : Bool) (msgs2 : List Message),
      (update s2 b2 msgs2).rendered.is_empty = false) :=
  empty_layout_restored_before_render emptyDemoState false [] rfl

/-- C8: handling CloseSettingsModal always discards the settings editor
draft; with new_settings present the live Settings are replaced and the
theme is re-applied from them immediately, and with new_settings absent
the state is exactly the old state with only the editor closed, so the
live Settings and applied theme are untouched; the layout is never
affected. -/
theorem close_settings_modal_contract (s : AppState) (ns : Option Settings) :
    let s2 := applyMessage s (.CloseSettingsModal ns)
    s2.settings_editor = none
  ∧ (∀ v, ns = some v → s2.settings = v ∧ s2.applied_theme = v.theme)
  ∧ (ns = none → s2 = { s with settings_editor := none })
  ∧ s2.layout = s.layout := by
  intro s2
  cases ns with
  | none =>
    refine ⟨rfl, ?_, fun _ => rfl, rfl⟩
    intro v hv
    exact Option.noConfusion hv
  | some v =>
    refine ⟨rfl, ?_, ?_, rfl⟩
    · intro w hw
      injection hw with hvw
      subst hvw
      exact ⟨rfl, rfl⟩
    · intro hn
      exact Option.noConfusion hn

/-- Demonstration settings committed from the editor. -/
def demoDarkSettings : Settings :=
  { theme := .dark, journal_path := .unset }

/-- Witness for close_settings_modal_contract: saving dark-theme settings
from the modal replaces the live settings and applies their theme. -/
theorem close_settings_modal_witness :
    (applyMessage demoState (.CloseSettingsModal (some demoDarkSettings))).settings
        = demoDarkSettings
  ∧ (applyMessage demoState (.CloseSettingsModal (some demoDarkSettings))).applied_theme
        = demoDarkSettings.theme :=
  (close_settings_modal_contract demoState (some demoDarkSettings)).2.1
    demoDarkSettings rfl

/-- C9: the per-frame drain applies the messages enqueued during a frame
exactly once each, by a left fold in arrival order - so a message
appended last is applied last, after all earlier ones - and the state
handed to the next frame (whose render reads it) is the fully drained
state. -/
theorem messages_applied_fifo_exactly_once
    (s : AppState) (b : Bool) (msgs : List Message) :
    (update s b msgs).next = List.foldl applyMessage (renderState s b) msgs
  ∧ (∀ m, (update s b (msgs ++ [m])).next
      = applyMessage ((update s b msgs).next) m)
  ∧ (update s b msgs).rendered = (renderState s b).layout
  ∧ (∀ (b2 : Bool) (msgs2 : List Message),
      (update ((update s b msgs).next) b2 msgs2).rendered
        = (renderState (List.foldl applyMessage (renderState s b) msgs) b2).layout) := by
  have h1 : ∀ (ms : List Message), (update s b ms).next
      = List.foldl applyMessage (renderState s b) ms :=
    fun ms => handle_messages_eq_foldl ms (renderState s b)
  refine ⟨h1 msgs, ?_, rfl, ?_⟩
  · intro m
    rw [h1 (msgs ++ [m]), h1 msgs, List.foldl_append]
    rfl
  · intro b2 msgs2
    rw [h1 msgs]
    rfl

/-- Looking up a path among entries filtered to exclude it finds nothing. -/
theorem fsGet_filter_ne (p : String) (l : FS) :
    fsGet p (l.filter (fun e => e.1 ≠ p)) = none := by
  induction l with
  | nil => rfl
  | cons e es ih =>
    simp only [List.filter_cons]
    by_cases he : e.1 = p
    · simpa [he] using ih
    · simpa [he, fsGet] using ih

/-- Appending entries does not shadow a lookup that found nothing. -/
theorem fsGet_append_of_none (p : String) (l₁ l₂ : FS) (h : fsGet p l₁ = none) :
    fsGet p (l₁ ++ l₂) = fsGet p l₂ := by
  induction l₁ with
  | nil => rfl
  | cons e es ih =>
    by_cases he : e.1 = p
    · simp [fsGet, he] at h
    · simp only [List.cons_append, fsGet, if_neg he] at h ⊢
      exact ih h

/-- Writing a file makes its content readable at that path. -/
theorem fsGet_fsSet_self (fs : FS) (p c : String) :
    fsGet p (fsSet fs p c) = some c := by
  unfold fsSet
  rw [fsGet_append_of_none p _ _ (fsGet_filter_ne p fs)]
  simp [fsGet]

/-- C3 counterexample: save_data writes the destination file in place, so
among the file-system states reachable if a crash interrupts saving the
integer 42, there is one where the destination holds the half-written
document "4", which load_data decodes as the valid but wrong value 4. -/
theorem save_crash_leaves_valid_half_written_file :
    ∃ fs ∈ crashStates []
        (save_data_ops (some "data") "data/settings.ron" (ronEncodeNat 42)),
      fsGet "data/settings.ron" fs = some "4"
    ∧ load_data ronDecodeNat (.ok "4") = .ok (some 4)
    ∧ (4 : Nat) ≠ 42 :=
  ⟨[("data/settings.ron", "4")], by decide, rfl, rfl, by decide⟩

/-- C3 (amended): save_data creates missing parent directories before
writing and reports I/O and encode failures as error values rather than
panicking, and a completed save leaves the encoded document at the
destination; but it truncates and rewrites the destination file directly
(File::create then write, never a rename or temporary file), so it has
no safeguard against a crash mid-write leaving a half-written file. -/
theorem save_data_creates_dirs_and_reports_errors
    (parent p encoded : String) (env : SaveEnv) (fs : FS) :
    save_data_ops (some parent) p encoded
      = [.createDirAll parent, .createFile p, .writeAll p encoded]
  ∧ fsGet p (List.foldl applyFsOp fs (save_data_ops (some parent) p encoded))
      = some encoded
  ∧ (∀ op ∈ save_data_ops (some parent) p encoded, ∀ src dst, op ≠ .rename src dst)
  ∧ (∀ k, env.create_dir_all = .ioFail k →
      save_data (some parent) env = .error (.ioError k))
  ∧ (∀ k, env.create_dir_all = .ok → env.create = .ioFail k →
      save_data (some parent) env = .error (.ioError k))
  ∧ (∀ e, env.create_dir_all = .ok → env.create = .ok → env.serialize = .error e →
      save_data (some parent) env = .error (.ronError e)) := by
  refine ⟨rfl, ?_, ?_, ?_, ?_, ?_⟩
  · show fsGet p (fsSet (fsSet fs p "") p encoded) = some encoded
    exact fsGet_fsSet_self _ p encoded
  · intro op hop src dst
    simp only [save_data_ops, List.cons_append, List.nil_append, List.mem_cons,
      List.not_mem_nil, or_false] at hop
    rcases hop with h1 | h1 | h1
    · subst h1
      intro hc
      cases hc
    · subst h1
      intro hc
      cases hc
    · subst h1
      intro hc
      cases hc
  · intro k hk
    simp [save_data, hk]
  · intro k hd hk
    simp [save_data, hd, hk]
  · intro e hd hc he
    simp [save_data, hd, hc, he]

/-- Witness for save_data_creates_dirs_and_reports_errors: an encode
failure surfaces as a ron error value. -/
theorem save_data_reports_errors_witness :
    save_data (some "data")
        { create_dir_all := .ok, create := .ok, serialize := .error "enc" }
      = .error (.ronError "enc") :=
  (save_data_creates_dirs_and_reports_errors "data" "data/settings.ron" "42"
      { create_dir_all := .ok, create := .ok, serialize := .error "enc" }
      []).2.2.2.2.2 "enc" rfl rfl rfl

end ThirdEye
